import Mathlib

/-!
Shallow embedding of `app1.py`: a Flask HTTP shim over the llama-cpp inference
engine.  The engine itself is external and opaque; it appears here only as
oracle functions (the `Llama` constructor, the `LlamaCache` constructor and the
completion call), each returning `Except String _` where `Except.error e`
models a raised Python exception with text `e`.

JSON values parsed from request bodies and returned by the engine are embedded
as the inductive `Json`.  Python dynamic attribute errors (calling `.get` on a
non-dict, `.strip` on a non-string, indexing an empty list) are modelled as
`Except.error`; such an error escaping the handler corresponds to an uncaught
Python exception (Flask would then produce its own error page outside this
code).
-/

/-- JSON values as produced by Python json parsing. -/
inductive Json where
  | null
  | boolean (b : Bool)
  | num (n : Int)
  | str (s : String)
  | arr (elems : List Json)
  | obj (fields : List (String × Json))

/-- First-match key lookup on a JSON object field list, as Python dict lookup
(json parsing cannot produce duplicate keys). -/
def jlookup : List (String × Json) → String → Option Json
  | [], _ => none
  | (k, v) :: rest, key => if k = key then some v else jlookup rest key

/-- The ASCII whitespace characters stripped by Python `str.strip()` (further
unicode space characters are not modelled; nothing here uses them). -/
def pyWS (c : Char) : Bool :=
  c = ' ' || c = '\t' || c = '\n' || c = '\r' || c = '\x0b' || c = '\x0c'

/-- Python `str.strip()` with no argument: removes leading and trailing
whitespace. -/
def pyStripStr (s : String) : String :=
  ⟨((s.data.dropWhile pyWS).reverse.dropWhile pyWS).reverse⟩

/-- Python `int(s)`: surrounding whitespace stripped, optional sign, decimal
digits.  (Digit-group underscores are not modelled; nothing here uses them.) -/
def pyInt (s : String) : Except String Int :=
  let t := pyStripStr s
  let signDigits : Int × List Char :=
    match t.data with
    | '-' :: rest => (-1, rest)
    | '+' :: rest => (1, rest)
    | cs => (1, cs)
  if signDigits.2 ≠ [] ∧ signDigits.2.all (fun c => c.isDigit) then
    Except.ok (signDigits.1 *
      (signDigits.2.foldl (fun n c => 10 * n + (c.toNat - 48)) 0 : Nat))
  else
    Except.error ("invalid literal for int() with base 10: " ++ s)

/-- The four module-level settings (app1.py lines 9-13). -/
structure Config where
  MODEL_PATH : String
  HOST_PORT : Int
  LLM_N_CTX : Int
  LLM_N_GPU_LAYERS : Int

/-- `int(os.environ.get(key, default))` for one integer setting: when the
variable is absent, `int` is applied to the integer default and returns it
unchanged; when it is present its value is parsed, and an unparseable value
raises `ValueError`, modelled as `Except.error`. -/
def readIntEnv (env : String → Option String) (key : String) (dflt : Int) :
    Except String Int :=
  match env key with
  | none => Except.ok dflt
  | some s => pyInt s

/-- Module-level configuration reads (app1.py lines 9-13):
`MODEL_PATH = os.environ.get("LLM_MODEL_PATH", "llama-2-7b-chat.Q4_K_M.gguf")`,
then `HOST_PORT = int(os.environ.get("HOST_PORT", 5000))`, `LLM_N_CTX` and
`LLM_N_GPU_LAYERS` in source order; the first `ValueError` aborts the import,
modelled as `Except.error` (the model-path read cannot fail). -/
def loadConfig (env : String → Option String) : Except String Config :=
  let mp := (env "LLM_MODEL_PATH").getD "llama-2-7b-chat.Q4_K_M.gguf"
  match readIntEnv env "HOST_PORT" 5000 with
  | Except.error e => Except.error e
  | Except.ok hp =>
    match readIntEnv env "LLM_N_CTX" 4096 with
    | Except.error e => Except.error e
    | Except.ok nctx =>
      match readIntEnv env "LLM_N_GPU_LAYERS" 0 with
      | Except.error e => Except.error e
      | Except.ok ngpu => Except.ok ⟨mp, hp, nctx, ngpu⟩

/-- Fixed 503 body text (line 70). -/
def UNAVAILABLE_MSG : String := "The chatbot model is not available. Check server logs."

/-- Fixed 400 body text for a missing or unparseable body (line 75). -/
def INVALID_JSON_MSG : String := "Invalid JSON or missing request body."

/-- Fixed 400 body text for an empty message (line 80). -/
def NO_MESSAGE_MSG : String := "No message provided"

/-- Fixed 500 body text for an inference-time exception (line 126). -/
def INTERNAL_ERROR_MSG : String := "An internal server error occurred while generating a response."

/-- The static system preamble of the prompt template (lines 84-85). -/
def SYSTEM_PREAMBLE : String :=
  "A chat between a curious user and an AI assistant. The assistant gives helpful, concise, and polite answers to the user\x27s questions. If the assistant does not know the answer, it says so.\n\n"

/-- Prompt construction (lines 83-88): preamble, then
`f"### User:\n{user_message}\n\n"`, then `"### Assistant:\n"`. -/
def mkPrompt (user_message : String) : String :=
  SYSTEM_PREAMBLE ++ "### User:\n" ++ user_message ++ "\n\n" ++ "### Assistant:\n"

/-- The argument record of the completion call `llm(prompt, ...)` (lines
102-110).  The sampling literals 0.7 and 0.95 are passed through unchanged by
this code, so they are represented exactly as rationals. -/
structure LlamaArgs where
  prompt : String
  max_tokens : Nat
  stop : List String
  echo : Bool
  temperature : Rat
  top_k : Nat
  top_p : Rat

/-- The fixed completion-call configuration applied to a prompt (lines 102-110). -/
def llmArgs (prompt : String) : LlamaArgs :=
  { prompt := prompt
    max_tokens := 200
    stop := ["### User:", "\n###"]
    echo := false
    temperature := 0.7
    top_k := 40
    top_p := 0.95 }

/-- An HTTP response: status code and JSON body (`jsonify(...), code`). -/
structure HttpResponse where
  status : Nat
  body : Json

/-- Result of one run of the handler: the list of completion calls made (empty
or a single call) and either a returned response or an uncaught Python
exception escaping the handler. -/
structure ChatbotResult where
  calls : List LlamaArgs
  outcome : Except String HttpResponse

/-- Python `.strip()` on a dynamic value: trims a string, raises
`AttributeError` on anything else. -/
def pyStrip : Json → Except String String
  | Json.str s => Except.ok (pyStripStr s)
  | _ => Except.error "AttributeError: strip"

/-- `data.get("message", "").strip()` (line 77): `.get` raises
`AttributeError` when `data` is not a dict (e.g. a JSON array body). -/
def getMessage (d : Json) : Except String String :=
  match d with
  | Json.obj fields => pyStrip ((jlookup fields "message").getD (Json.str ""))
  | _ => Except.error "AttributeError: get"

/-- `output.get("choices", [{}])[0].get("text", "").strip()` (line 113).
`output.get` on a non-dict raises; `[0]` on an empty list raises IndexError;
`[0]` on any non-list value leads to a raise as well (dict and int subscripts
raise directly, a string subscript yields a one-character string whose `.get`
then raises), so those branches collapse to one error; `.get` on a non-dict
first element raises; `.strip` on a non-string text raises.  All of these are
inside the try block, hence caught and turned into the 500 response. -/
def extract_response (output : Json) : Except String String := do
  let choices ← match output with
    | Json.obj fields => Except.ok ((jlookup fields "choices").getD (Json.arr [Json.obj []]))
    | _ => Except.error "AttributeError: get"
  let first ← match choices with
    | Json.arr [] => Except.error "IndexError: list index out of range"
    | Json.arr (x :: _) => Except.ok x
    | _ => Except.error "TypeError: not subscriptable"
  let text ← match first with
    | Json.obj fields => Except.ok ((jlookup fields "text").getD (Json.str ""))
    | _ => Except.error "AttributeError: get"
  pyStrip text

/-- The try/except block (lines 90-126): the completion call with the fixed
sampling configuration, output extraction, the 200 response, and the generic
500 on any exception raised inside the block. -/
def try_inference (llmCall : LlamaArgs → Except String Json)
    (user_message : String) : ChatbotResult :=
  match llmCall (llmArgs (mkPrompt user_message)) with
  | Except.error _ =>
      ⟨[llmArgs (mkPrompt user_message)],
        Except.ok ⟨500, Json.obj [("response", Json.str INTERNAL_ERROR_MSG)]⟩⟩
  | Except.ok output =>
      match extract_response output with
      | Except.error _ =>
          ⟨[llmArgs (mkPrompt user_message)],
            Except.ok ⟨500, Json.obj [("response", Json.str INTERNAL_ERROR_MSG)]⟩⟩
      | Except.ok response_text =>
          ⟨[llmArgs (mkPrompt user_message)],
            Except.ok ⟨200, Json.obj [("response", Json.str response_text)]⟩⟩

/-- `request.get_json(silent=True)` as seen by the `data is None` check (line
73): `none` models a missing or unparseable body, and a body that is the JSON
literal `null` parses to Python `None`, indistinguishable from a parse
failure. -/
def get_json_silent (body : Option Json) : Option Json :=
  match body with
  | some Json.null => none
  | other => other

/-- The POST /chatbot handler `chatbot_api` (lines 64-126).  `llm` is the
global model handle (of opaque handle type `H`), `llmCall` the engine
completion call, `body` the parsed request body (`none` when missing or
unparseable). -/
def chatbot_api {H : Type} (llm : Option H)
    (llmCall : LlamaArgs → Except String Json)
    (body : Option Json) : ChatbotResult :=
  match llm with
  | none =>
      ⟨[], Except.ok ⟨503, Json.obj [("response", Json.str UNAVAILABLE_MSG)]⟩⟩
  | some _ =>
      match get_json_silent body with
      | none =>
          ⟨[], Except.ok ⟨400, Json.obj [("error", Json.str INVALID_JSON_MSG)]⟩⟩
      | some d =>
          match getMessage d with
          | Except.error e => ⟨[], Except.error e⟩
          | Except.ok user_message =>
              if user_message = "" then
                ⟨[], Except.ok ⟨400, Json.obj [("error", Json.str NO_MESSAGE_MSG)]⟩⟩
              else
                try_inference llmCall user_message

/-- Result of `load_llm_model` (lines 23-52): the global `llm` after the call,
the returned value, and the handles on which `LlamaCache` was invoked. -/
structure LoadResult (H : Type) where
  globalLlm : Option H
  retVal : Option H
  cacheCalls : List H

/-- `load_llm_model` (lines 23-52).  `fileExists` models
`os.path.exists(MODEL_PATH)`; `llamaCtor` the `Llama(model_path, n_ctx,
n_gpu_layers, verbose)` constructor; `cacheCtor` the `LlamaCache(llm)` call.
`glob` is the global `llm` before the call.  The global is assigned inside the
try block, before the cache call, so a failure of the cache call leaves the
global set while the function returns `None`. -/
def load_llm_model {H : Type} (cfg : Config) (fileExists : Bool)
    (llamaCtor : String → Int → Int → Bool → Except String H)
    (cacheCtor : H → Except String Unit)
    (glob : Option H) : LoadResult H :=
  if fileExists = false then
    { globalLlm := glob, retVal := none, cacheCalls := [] }
  else
    match llamaCtor cfg.MODEL_PATH cfg.LLM_N_CTX cfg.LLM_N_GPU_LAYERS false with
    | Except.error _ => { globalLlm := glob, retVal := none, cacheCalls := [] }
    | Except.ok h =>
        match cacheCtor h with
        | Except.error _ => { globalLlm := some h, retVal := none, cacheCalls := [h] }
        | Except.ok _ => { globalLlm := some h, retVal := some h, cacheCalls := [h] }

/-- A completion oracle that always raises (a model that is down). -/
def downLlm : LlamaArgs → Except String Json := fun _ => Except.error "boom"

/-- A completion oracle that raises with the text "error". -/
def errTextLlm : LlamaArgs → Except String Json := fun _ => Except.error "error"

/-- A completion oracle returning an output with an empty choices list. -/
def emptyChoicesLlm : LlamaArgs → Except String Json :=
  fun _ => Except.ok (Json.obj [("choices", Json.arr [])])

/-- A request body whose message is "Hello". -/
def helloBody : Json := Json.obj [("message", Json.str "Hello")]

/-- An environment where only HOST_PORT is set, to a non-numeric string. -/
def envHostAbc : String → Option String :=
  fun k => if k = "HOST_PORT" then some "abc" else none

/-- A Llama constructor oracle that always succeeds with handle 7. -/
def ctorOk7 : String → Int → Int → Bool → Except String Nat :=
  fun _ _ _ _ => Except.ok 7

/-- A LlamaCache oracle that always raises. -/
def cacheBoom : Nat → Except String Unit :=
  fun _ => Except.error "cache construction failed"

/-- A LlamaCache oracle that always succeeds. -/
def cacheOk : Nat → Except String Unit := fun _ => Except.ok ()

/-- The documented default configuration. -/
def cfg0 : Config := ⟨"llama-2-7b-chat.Q4_K_M.gguf", 5000, 4096, 0⟩

/-! ## Helper lemmas -/

/-- Whatever the completion call returns, the try block makes exactly one
completion call, with the fixed configuration applied to the built prompt. -/
theorem try_inference_calls (llmCall : LlamaArgs → Except String Json)
    (m : String) :
    (try_inference llmCall m).calls = [llmArgs (mkPrompt m)] := by
  unfold try_inference
  cases llmCall (llmArgs (mkPrompt m)) with
  | error e => rfl
  | ok out =>
    dsimp only
    cases extract_response out <;> rfl

/-- Unfolding of the handler on a JSON-object body. -/
theorem chatbot_obj {H : Type} (llm : H)
    (llmCall : LlamaArgs → Except String Json) (fields : List (String × Json)) :
    chatbot_api (some llm) llmCall (some (Json.obj fields)) =
      (match getMessage (Json.obj fields) with
        | Except.error e => ⟨[], Except.error e⟩
        | Except.ok user_message =>
            if user_message = "" then
              ⟨[], Except.ok ⟨400, Json.obj [("error", Json.str NO_MESSAGE_MSG)]⟩⟩
            else
              try_inference llmCall user_message) := rfl

/-- The handler makes either no completion call or exactly one, with the
fixed configuration applied to the built prompt. -/
theorem calls_shape {H : Type} (llm : Option H)
    (llmCall : LlamaArgs → Except String Json) (body : Option Json) :
    (chatbot_api llm llmCall body).calls = []
    ∨ ∃ m, (chatbot_api llm llmCall body).calls = [llmArgs (mkPrompt m)] := by
  unfold chatbot_api
  cases llm with
  | none => exact Or.inl rfl
  | some h =>
    dsimp only
    cases get_json_silent body with
    | none => exact Or.inl rfl
    | some d =>
      dsimp only
      cases getMessage d with
      | error e => exact Or.inl rfl
      | ok user_message =>
        dsimp only
        by_cases hm : user_message = ""
        · rw [if_pos hm]
          exact Or.inl rfl
        · rw [if_neg hm]
          exact Or.inr ⟨user_message, try_inference_calls llmCall user_message⟩

/-! ## Claims -/

/-- C1: every POST /chatbot request processed while the global model handle is
None gets HTTP 503 with the fixed body
`{"response": "The chatbot model is not available. Check server logs."}`,
regardless of the request body, including missing or malformed bodies. -/
theorem C1_unavailable_503 {H : Type}
    (llmCall : LlamaArgs → Except String Json) (body : Option Json) :
    chatbot_api (H := H) none llmCall body =
      ⟨[], Except.ok ⟨503, Json.obj [("response", Json.str UNAVAILABLE_MSG)]⟩⟩ := rfl

/-- C2 counterexample: a body that is the JSON literal `null` is valid JSON
with no `message` field, so the claim prescribes 400 "No message provided";
the code collapses it with a parse failure and answers 400 with the invalid
body message instead. -/
theorem C2_counterexample :
    (chatbot_api (some ()) downLlm (some Json.null)).outcome =
      Except.ok ⟨400, Json.obj [("error", Json.str INVALID_JSON_MSG)]⟩
    ∧ INVALID_JSON_MSG ≠ NO_MESSAGE_MSG := by
  exact ⟨rfl, by decide⟩

/-- C2 amended: with the model available, a missing body, an unparseable body,
or a body that is JSON `null` gets 400 with the invalid-body message; a body
that is a JSON object whose `message` field is absent or a string that is
empty or whitespace-only after trimming gets 400 "No message provided"; in
both cases no completion call is made. -/
theorem C2_validation {H : Type} (llm : H)
    (llmCall : LlamaArgs → Except String Json) (body : Option Json) :
    ((body = none ∨ body = some Json.null) →
      chatbot_api (some llm) llmCall body =
        ⟨[], Except.ok ⟨400, Json.obj [("error", Json.str INVALID_JSON_MSG)]⟩⟩)
    ∧ (∀ fields, body = some (Json.obj fields) →
        (jlookup fields "message" = none ∨
          ∃ s, jlookup fields "message" = some (Json.str s) ∧ pyStripStr s = "") →
        chatbot_api (some llm) llmCall body =
          ⟨[], Except.ok ⟨400, Json.obj [("error", Json.str NO_MESSAGE_MSG)]⟩⟩) := by
  constructor
  · rintro (rfl | rfl) <;> rfl
  · rintro fields rfl hmsg
    have hget : getMessage (Json.obj fields) = Except.ok "" := by
      show pyStrip ((jlookup fields "message").getD (Json.str "")) = Except.ok ""
      rcases hmsg with hnone | ⟨s, hsome, hs⟩
      · rw [hnone]
        rfl
      · rw [hsome]
        show Except.ok (pyStripStr s) = Except.ok ""
        exact congrArg Except.ok hs
    rw [chatbot_obj llm llmCall fields, hget]
    rfl

/-- C2 witness: concrete runs of both amended branches. -/
theorem C2_validation_witness :
    chatbot_api (some ()) downLlm (some Json.null) =
      ⟨[], Except.ok ⟨400, Json.obj [("error", Json.str INVALID_JSON_MSG)]⟩⟩
    ∧ chatbot_api (some ()) downLlm (some (Json.obj [("message", Json.str "  ")])) =
      ⟨[], Except.ok ⟨400, Json.obj [("error", Json.str NO_MESSAGE_MSG)]⟩⟩ :=
  ⟨(C2_validation () downLlm (some Json.null)).1 (Or.inr rfl),
   (C2_validation () downLlm (some (Json.obj [("message", Json.str "  ")]))).2
     [("message", Json.str "  ")] rfl (Or.inr ⟨"  ", rfl, by decide⟩)⟩

/-- C3: for every non-empty trimmed user message m, the constructed prompt is
the fixed system preamble followed by a "### User:" section containing m and
ends with "### Assistant:\n"; in particular for m = "What is 2+2?" the prompt
contains the literal substring "### User:\nWhat is 2+2?" and ends with
"### Assistant:\n". -/
theorem C3_prompt_shape (m : String) (hm : m ≠ "") :
    mkPrompt m = SYSTEM_PREAMBLE ++ ("### User:\n" ++ (m ++ ("\n\n" ++ "### Assistant:\n")))
    ∧ (∃ a, mkPrompt m = a ++ "### Assistant:\n")
    ∧ (∃ a b, mkPrompt "What is 2+2?" = a ++ ("### User:\nWhat is 2+2?" ++ b)) := by
  refine ⟨?_, ⟨SYSTEM_PREAMBLE ++ "### User:\n" ++ m ++ "\n\n", rfl⟩,
    ⟨SYSTEM_PREAMBLE, "\n\n" ++ "### Assistant:\n", ?_⟩⟩
  · unfold mkPrompt
    rw [String.append_assoc, String.append_assoc, String.append_assoc]
  · set_option maxRecDepth 8000 in decide

/-- C3 witness: the prompt properties at the concrete message "What is 2+2?". -/
theorem C3_prompt_shape_witness :
    mkPrompt "What is 2+2?" =
      SYSTEM_PREAMBLE ++ ("### User:\n" ++ ("What is 2+2?" ++ ("\n\n" ++ "### Assistant:\n")))
    ∧ (∃ a, mkPrompt "What is 2+2?" = a ++ "### Assistant:\n")
    ∧ (∃ a b, mkPrompt "What is 2+2?" = a ++ ("### User:\nWhat is 2+2?" ++ b)) :=
  C3_prompt_shape "What is 2+2?" (by decide)

/-- C4: every completion call the handler makes uses exactly max_tokens 200,
stop sequences ["### User:", "\n###"], echo false, temperature 0.7, top_k 40,
top_p 0.95, and the constructed prompt. -/
theorem C4_call_config {H : Type} (llm : Option H)
    (llmCall : LlamaArgs → Except String Json) (body : Option Json)
    (a : LlamaArgs) (ha : a ∈ (chatbot_api llm llmCall body).calls) :
    a.max_tokens = 200 ∧ a.stop = ["### User:", "\n###"] ∧ a.echo = false
    ∧ a.temperature = 0.7 ∧ a.top_k = 40 ∧ a.top_p = 0.95
    ∧ ∃ m, a.prompt = mkPrompt m := by
  rcases calls_shape llm llmCall body with hnil | ⟨m, hone⟩
  · rw [hnil] at ha
    exact absurd ha (List.not_mem_nil a)
  · rw [hone] at ha
    have hae : a = llmArgs (mkPrompt m) := List.mem_singleton.mp ha
    subst hae
    exact ⟨rfl, rfl, rfl, rfl, rfl, rfl, ⟨m, rfl⟩⟩

/-- C4 witness: a concrete run with message "Hi" makes one completion call with
the fixed configuration. -/
theorem C4_call_config_witness :
    (llmArgs (mkPrompt "Hi")).max_tokens = 200
    ∧ (llmArgs (mkPrompt "Hi")).stop = ["### User:", "\n###"]
    ∧ (llmArgs (mkPrompt "Hi")).echo = false
    ∧ (llmArgs (mkPrompt "Hi")).temperature = 0.7
    ∧ (llmArgs (mkPrompt "Hi")).top_k = 40
    ∧ (llmArgs (mkPrompt "Hi")).top_p = 0.95
    ∧ ∃ m, (llmArgs (mkPrompt "Hi")).prompt = mkPrompt m :=
  C4_call_config (some ()) downLlm (some (Json.obj [("message", Json.str "Hi")]))
    (llmArgs (mkPrompt "Hi")) (List.Mem.head [])

/-- C5 counterexample: an inference exception whose text is "error" does
appear verbatim inside the fixed 500 body, so the claim "the exception text
appears nowhere in the response" fails as stated (the response is 500 with the
fixed internal-error body all the same). -/
theorem C5_counterexample :
    (chatbot_api (some ()) errTextLlm (some helloBody)).outcome =
      Except.ok ⟨500, Json.obj [("response", Json.str INTERNAL_ERROR_MSG)]⟩
    ∧ ∃ a b, INTERNAL_ERROR_MSG = a ++ ("error" ++ b) :=
  ⟨rfl, ⟨"An internal server ", " occurred while generating a response.", by decide⟩⟩

/-- C5 amended: for every request that reaches the inference call, if the call
raises an exception the response is HTTP 500 with the fixed internal-error
body, which is one constant independent of the exception (so no
exception-specific detail is leaked, although text coincidentally shared with
the fixed body, such as the word "error", does occur in it), and no exception
escapes the handler (the outcome is a returned response). -/
theorem C5_exception_500 {H : Type} (llm : H) (e : String)
    (fields : List (String × Json)) (s : String)
    (hf : jlookup fields "message" = some (Json.str s))
    (hs : pyStripStr s ≠ "") :
    chatbot_api (some llm) (fun _ => Except.error e) (some (Json.obj fields)) =
      ⟨[llmArgs (mkPrompt (pyStripStr s))],
        Except.ok ⟨500, Json.obj [("response", Json.str INTERNAL_ERROR_MSG)]⟩⟩ := by
  have hget : getMessage (Json.obj fields) = Except.ok (pyStripStr s) := by
    show pyStrip ((jlookup fields "message").getD (Json.str "")) = Except.ok (pyStripStr s)
    rw [hf]
    rfl
  rw [chatbot_obj llm (fun _ => Except.error e) fields, hget]
  dsimp only
  rw [if_neg hs]
  rfl

/-- C5 witness: a concrete run where the engine raises on the "Hello" request. -/
theorem C5_exception_500_witness :
    chatbot_api (some ()) (fun _ => Except.error "CUDA out of memory") (some (Json.obj [("message", Json.str "Hello")])) =
      ⟨[llmArgs (mkPrompt (pyStripStr "Hello"))],
        Except.ok ⟨500, Json.obj [("response", Json.str INTERNAL_ERROR_MSG)]⟩⟩ :=
  C5_exception_500 () "CUDA out of memory" [("message", Json.str "Hello")] "Hello"
    rfl (by decide)

/-- C6: when the model file exists and the engine constructor returns a handle,
load_llm_model invokes the engine cache constructor on that handle, and when
that call also succeeds it returns the ready handle. -/
theorem C6_cache_enabled {H : Type} (cfg : Config)
    (llamaCtor : String → Int → Int → Bool → Except String H)
    (cacheCtor : H → Except String Unit) (glob : Option H) (h : H)
    (hctor : llamaCtor cfg.MODEL_PATH cfg.LLM_N_CTX cfg.LLM_N_GPU_LAYERS false = Except.ok h)
    (hcache : cacheCtor h = Except.ok ()) :
    load_llm_model cfg true llamaCtor cacheCtor glob =
      { globalLlm := some h, retVal := some h, cacheCalls := [h] } := by
  unfold load_llm_model
  rw [if_neg (by decide), hctor]
  dsimp only
  rw [hcache]

/-- C6 witness: a concrete successful load enables the cache on the returned
handle. -/
theorem C6_cache_enabled_witness :
    load_llm_model cfg0 true ctorOk7 cacheOk none =
      { globalLlm := some 7, retVal := some 7, cacheCalls := [7] } :=
  C6_cache_enabled cfg0 ctorOk7 cacheOk none 7 rfl rfl

/-- C7 counterexample: with HOST_PORT set to the unparseable string "abc" the
configuration loader raises (ValueError at import time) instead of producing
the hardcoded default. -/
theorem C7_counterexample :
    loadConfig envHostAbc =
      Except.error "invalid literal for int() with base 10: abc" := rfl

/-- C7 amended: each of the four settings takes its hardcoded default when its
environment variable is absent, whatever the other variables hold; but for each
of the three integer settings (HOST_PORT, LLM_N_CTX, LLM_N_GPU_LAYERS) a value
unparseable as an integer makes int() raise ValueError at import time, crashing
startup, rather than falling back to the default. -/
theorem C7_defaults_and_unparseable (env env2 : String → Option String)
    (c : Config) (s : String)
    (hok : loadConfig env = Except.ok c) (hbad : (pyInt s).toOption = none) :
    ((env "LLM_MODEL_PATH" = none → c.MODEL_PATH = "llama-2-7b-chat.Q4_K_M.gguf")
      ∧ (env "HOST_PORT" = none → c.HOST_PORT = 5000)
      ∧ (env "LLM_N_CTX" = none → c.LLM_N_CTX = 4096)
      ∧ (env "LLM_N_GPU_LAYERS" = none → c.LLM_N_GPU_LAYERS = 0))
    ∧ ((env2 "HOST_PORT" = some s ∨ env2 "LLM_N_CTX" = some s ∨
        env2 "LLM_N_GPU_LAYERS" = some s) →
        (loadConfig env2).toOption = none) := by
  have he : ∃ e, pyInt s = Except.error e := by
    rcases hpy : pyInt s with e | v
    · exact ⟨e, rfl⟩
    · rw [hpy] at hbad
      simp [Except.toOption] at hbad
  rcases he with ⟨e, he⟩
  constructor
  · unfold loadConfig at hok
    rcases h1 : readIntEnv env "HOST_PORT" 5000 with e1 | hp
    · rw [h1] at hok
      exact Except.noConfusion hok
    · rw [h1] at hok
      dsimp only at hok
      rcases h2 : readIntEnv env "LLM_N_CTX" 4096 with e2 | nctx
      · rw [h2] at hok
        exact Except.noConfusion hok
      · rw [h2] at hok
        dsimp only at hok
        rcases h3 : readIntEnv env "LLM_N_GPU_LAYERS" 0 with e3 | ngpu
        · rw [h3] at hok
          exact Except.noConfusion hok
        · rw [h3] at hok
          dsimp only at hok
          injection hok with hc
          subst hc
          refine ⟨?_, ?_, ?_, ?_⟩
          · intro hmp
            show (env "LLM_MODEL_PATH").getD "llama-2-7b-chat.Q4_K_M.gguf" = _
            rw [hmp]
            rfl
          · intro hk
            unfold readIntEnv at h1
            rw [hk] at h1
            injection h1 with h
            exact h.symm
          · intro hk
            unfold readIntEnv at h2
            rw [hk] at h2
            injection h2 with h
            exact h.symm
          · intro hk
            unfold readIntEnv at h3
            rw [hk] at h3
            injection h3 with h
            exact h.symm
  · have hbadRead : ∀ key d, env2 key = some s →
        readIntEnv env2 key d = Except.error e := by
      intro key d hk
      unfold readIntEnv
      rw [hk]
      exact he
    rintro (hk | hk | hk)
    · unfold loadConfig
      rw [hbadRead "HOST_PORT" 5000 hk]
      rfl
    · unfold loadConfig
      rcases h1 : readIntEnv env2 "HOST_PORT" 5000 with e1 | hp
      · rfl
      · dsimp only
        rw [hbadRead "LLM_N_CTX" 4096 hk]
        rfl
    · unfold loadConfig
      rcases h1 : readIntEnv env2 "HOST_PORT" 5000 with e1 | hp
      · rfl
      · dsimp only
        rcases h2 : readIntEnv env2 "LLM_N_CTX" 4096 with e2 | nctx
        · rfl
        · dsimp only
          rw [hbadRead "LLM_N_GPU_LAYERS" 0 hk]
          rfl

/-- C7 witness: in the empty environment every setting takes its documented
default, and the environment with HOST_PORT="abc" yields no configuration. -/
theorem C7_defaults_and_unparseable_witness :
    (((none : Option String) = none → cfg0.MODEL_PATH = "llama-2-7b-chat.Q4_K_M.gguf")
      ∧ ((none : Option String) = none → cfg0.HOST_PORT = 5000)
      ∧ ((none : Option String) = none → cfg0.LLM_N_CTX = 4096)
      ∧ ((none : Option String) = none → cfg0.LLM_N_GPU_LAYERS = 0))
    ∧ ((envHostAbc "HOST_PORT" = some "abc" ∨ envHostAbc "LLM_N_CTX" = some "abc" ∨
        envHostAbc "LLM_N_GPU_LAYERS" = some "abc") →
        (loadConfig envHostAbc).toOption = none) :=
  C7_defaults_and_unparseable (fun _ => none) envHostAbc cfg0 "abc" rfl rfl

/-- C8: documenting the defensive-extraction bug.  Extraction does substitute
the empty string for a missing "choices" key and for a first choice without a
"text" field, but an engine output with an empty choices list makes
`output.get("choices", [dict()])[0]` raise IndexError, which the surrounding
try/except turns into the 500 internal-error response instead of the 200 the
spec prescribes. -/
theorem C8_empty_choices_bug :
    extract_response (Json.obj [("choices", Json.arr [])]) =
      Except.error "IndexError: list index out of range"
    ∧ (chatbot_api (some ()) emptyChoicesLlm (some helloBody)).outcome =
        Except.ok ⟨500, Json.obj [("response", Json.str INTERNAL_ERROR_MSG)]⟩
    ∧ extract_response (Json.obj []) = Except.ok ""
    ∧ extract_response (Json.obj [("choices", Json.arr [Json.obj []])]) = Except.ok "" :=
  ⟨rfl, rfl, rfl, rfl⟩

/-- C9: configuration loading is deterministic in the four read variables, and
with no environment overrides it produces exactly the documented defaults
(model path "llama-2-7b-chat.Q4_K_M.gguf", port 5000, context size 4096, GPU
layer count 0). -/
theorem C9_deterministic_defaults (env1 env2 : String → Option String)
    (h1 : env1 "LLM_MODEL_PATH" = env2 "LLM_MODEL_PATH")
    (h2 : env1 "HOST_PORT" = env2 "HOST_PORT")
    (h3 : env1 "LLM_N_CTX" = env2 "LLM_N_CTX")
    (h4 : env1 "LLM_N_GPU_LAYERS" = env2 "LLM_N_GPU_LAYERS") :
    loadConfig env1 = loadConfig env2
    ∧ loadConfig (fun _ => none) =
        Except.ok ⟨"llama-2-7b-chat.Q4_K_M.gguf", 5000, 4096, 0⟩ := by
  refine ⟨?_, rfl⟩
  unfold loadConfig readIntEnv
  rw [h1, h2, h3, h4]

/-- C9 witness: two identical empty environments give the same configuration,
namely the documented defaults. -/
theorem C9_deterministic_defaults_witness :
    loadConfig (fun _ => none) = loadConfig (fun _ => none)
    ∧ loadConfig (fun _ => none) =
        Except.ok ⟨"llama-2-7b-chat.Q4_K_M.gguf", 5000, 4096, 0⟩ :=
  C9_deterministic_defaults (fun _ => none) (fun _ => none) rfl rfl rfl rfl

/-- C10: if the engine constructor succeeds but the cache-enabling call raises,
load_llm_model returns None while the global handle remains assigned to the
constructed instance, so the completion endpoint availability check passes and
a valid request is served by the model (the completion call is made). -/
theorem C10_cache_failure_inconsistency {H : Type} (cfg : Config)
    (llamaCtor : String → Int → Int → Bool → Except String H)
    (cacheCtor : H → Except String Unit) (glob : Option H) (h : H) (e : String)
    (llmCall : LlamaArgs → Except String Json)
    (hctor : llamaCtor cfg.MODEL_PATH cfg.LLM_N_CTX cfg.LLM_N_GPU_LAYERS false = Except.ok h)
    (hcache : cacheCtor h = Except.error e) :
    (load_llm_model cfg true llamaCtor cacheCtor glob).retVal = none
    ∧ (load_llm_model cfg true llamaCtor cacheCtor glob).globalLlm = some h
    ∧ (chatbot_api ((load_llm_model cfg true llamaCtor cacheCtor glob).globalLlm)
        llmCall (some helloBody)).calls = [llmArgs (mkPrompt "Hello")] := by
  have hload : load_llm_model cfg true llamaCtor cacheCtor glob =
      { globalLlm := some h, retVal := none, cacheCalls := [h] } := by
    unfold load_llm_model
    rw [if_neg (by decide), hctor]
    dsimp only
    rw [hcache]
  rw [hload]
  refine ⟨rfl, rfl, ?_⟩
  show (try_inference llmCall "Hello").calls = [llmArgs (mkPrompt "Hello")]
  exact try_inference_calls llmCall "Hello"

/-- C10 witness: a concrete run with handle 7, a failing cache call and a down
model oracle. -/
theorem C10_cache_failure_inconsistency_witness :
    (load_llm_model cfg0 true ctorOk7 cacheBoom none).retVal = none
    ∧ (load_llm_model cfg0 true ctorOk7 cacheBoom none).globalLlm = some 7
    ∧ (chatbot_api ((load_llm_model cfg0 true ctorOk7 cacheBoom none).globalLlm)
        downLlm (some helloBody)).calls = [llmArgs (mkPrompt "Hello")] :=
  C10_cache_failure_inconsistency cfg0 ctorOk7 cacheBoom none 7
    "cache construction failed" downLlm rfl rfl
